import Mathlib

/-!
Verification of the Business Health Dashboard's KPI health-classification
and insight-generation engine, shallowly embedded from the TypeScript
sources:

* src/lib/business-logic/thresholds.ts  (thresholdRules, calculateHealthStatus)
* src/lib/business-logic/insight-rules.ts (insightRules, generateInsights, getInsightsForKPI)
* src/services/mock-api.ts (mockBusinessHealthScore, updateInsight)
* the BusinessHealthDashboard component (getHealthScoreColor)

JavaScript numbers are modelled as rationals; the wall-clock values
Date.now() and new Date().toISOString() are abstracted as an explicit
timestamp string threaded through the generators.
-/

namespace BHD

/-- Health states of a KPI, from the HealthStatus union type. -/
inductive HealthStatus where
  | excellent
  | good
  | warning
  | critical
deriving DecidableEq, Repr

/-- Trend direction of a KPI reading. -/
inductive Trend where
  | up
  | down
  | stable
deriving DecidableEq, Repr

/-- Insight priority levels. -/
inductive Priority where
  | high
  | medium
  | low
deriving DecidableEq, Repr

/-- One threshold band: optional lower and upper bounds
(matches the `{ min?: number; max?: number }` shape). -/
structure Band where
  min : Option ℚ := none
  max : Option ℚ := none
deriving DecidableEq, Repr

/-- Per-KPI threshold rule: four bands, one per health state. -/
structure ThresholdRule where
  kpiId : String
  excellent : Band
  good : Band
  warning : Band
  critical : Band
deriving DecidableEq, Repr

/-- thresholdRules['revenue'] from thresholds.ts. -/
def revenueRule : ThresholdRule :=
  { kpiId := "revenue"
    excellent := { min := some 1000000 }
    good := { min := some 500000, max := some 999999 }
    warning := { min := some 250000, max := some 499999 }
    critical := { max := some 249999 } }

/-- thresholdRules['revenue-growth'] from thresholds.ts. -/
def revenueGrowthRule : ThresholdRule :=
  { kpiId := "revenue-growth"
    excellent := { min := some 20 }
    good := { min := some 10, max := some (19.9 : ℚ) }
    warning := { min := some 0, max := some (9.9 : ℚ) }
    critical := { max := some (-0.1 : ℚ) } }

/-- thresholdRules['profit-margin'] from thresholds.ts. -/
def profitMarginRule : ThresholdRule :=
  { kpiId := "profit-margin"
    excellent := { min := some 20 }
    good := { min := some 15, max := some (19.9 : ℚ) }
    warning := { min := some 10, max := some (14.9 : ℚ) }
    critical := { max := some (9.9 : ℚ) } }

/-- thresholdRules['expense-ratio'] from thresholds.ts. -/
def expenseRatioRule : ThresholdRule :=
  { kpiId := "expense-ratio"
    excellent := { max := some 70 }
    good := { min := some (70.1 : ℚ), max := some 80 }
    warning := { min := some (80.1 : ℚ), max := some 90 }
    critical := { min := some (90.1 : ℚ) } }

/-- thresholdRules['customer-health'] from thresholds.ts. -/
def customerHealthRule : ThresholdRule :=
  { kpiId := "customer-health"
    excellent := { min := some 85 }
    good := { min := some 70, max := some (84.9 : ℚ) }
    warning := { min := some 50, max := some (69.9 : ℚ) }
    critical := { max := some (49.9 : ℚ) } }

/-- thresholdRules['churn-rate'] from thresholds.ts. -/
def churnRateRule : ThresholdRule :=
  { kpiId := "churn-rate"
    excellent := { max := some 2 }
    good := { min := some (2.1 : ℚ), max := some 5 }
    warning := { min := some (5.1 : ℚ), max := some 10 }
    critical := { min := some (10.1 : ℚ) } }

/-- thresholdRules['clv'] from thresholds.ts. -/
def clvRule : ThresholdRule :=
  { kpiId := "clv"
    excellent := { min := some 10000 }
    good := { min := some 5000, max := some 9999 }
    warning := { min := some 2000, max := some 4999 }
    critical := { max := some 1999 } }

/-- The threshold registry `thresholdRules : Record<KPIId, ThresholdRule>`,
modelled as a lookup on the record keys (a missing key yields none,
matching an undefined property access). -/
def thresholdRules : String → Option ThresholdRule
  | "revenue" => some revenueRule
  | "revenue-growth" => some revenueGrowthRule
  | "profit-margin" => some profitMarginRule
  | "expense-ratio" => some expenseRatioRule
  | "customer-health" => some customerHealthRule
  | "churn-rate" => some churnRateRule
  | "clv" => some clvRule
  | _ => none

/-- The keys of the thresholdRules record. -/
def registeredKPIIds : List String :=
  ["revenue", "revenue-growth", "profit-margin", "expense-ratio",
   "customer-health", "churn-rate", "clv"]

/-- Matches `band.min !== undefined && value >= band.min`. -/
def minHit (b : Band) (value : ℚ) : Bool :=
  match b.min with
  | some m => decide (m ≤ value)
  | none => false

/-- Matches `band.max !== undefined && value <= band.max`. -/
def maxHit (b : Band) (value : ℚ) : Bool :=
  match b.max with
  | some m => decide (value ≤ m)
  | none => false

/-- The condition the source tests for one band:
`(band.min !== undefined && value >= band.min) || (band.max !== undefined && value <= band.max)`. -/
def bandFires (b : Band) (value : ℚ) : Bool :=
  minHit b value || maxHit b value

/-- Body of calculateHealthStatus once a rule has been found: check
critical first, then warning, then good, then excellent, defaulting
to good. -/
def classifyWithRule (rule : ThresholdRule) (value : ℚ) : HealthStatus :=
  if bandFires rule.critical value then .critical
  else if bandFires rule.warning value then .warning
  else if bandFires rule.good value then .good
  else if bandFires rule.excellent value then .excellent
  else .good

/-- calculateHealthStatus from thresholds.ts: look the KPI up in the
registry (defaulting to good when no rule exists) and classify. -/
def calculateHealthStatus (kpiId : String) (value : ℚ) : HealthStatus :=
  match thresholdRules kpiId with
  | none => .good
  | some rule => classifyWithRule rule value

/-- The band-evaluation order, as (state, band) pairs, used to phrase the
classifier as a first-match scan over an ordered band list. -/
def orderedBands (rule : ThresholdRule) : List (HealthStatus × Band) :=
  [(.critical, rule.critical), (.warning, rule.warning),
   (.good, rule.good), (.excellent, rule.excellent)]

/-- First-match reading of the classifier: the state of the first band in
critical → warning → good → excellent order whose (source) matching
condition fires, defaulting to good. -/
def firstMatchClassify (rule : ThresholdRule) (value : ℚ) : HealthStatus :=
  match (orderedBands rule).find? (fun p => bandFires p.2 value) with
  | some p => p.1
  | none => .good

/-- A rule whose bands leave a gap: no band matches a value below 10. -/
def gapRule : ThresholdRule :=
  { kpiId := "gap"
    excellent := { min := some 10 }
    good := { min := some 10 }
    warning := { min := some 10 }
    critical := { min := some 10 } }

lemma warn_cover {a b v : ℚ} (h : a ≤ b) :
    bandFires { min := some a, max := some b } v = true := by
  rcases le_total v b with hv | hv
  · simp [bandFires, minHit, maxHit, hv]
  · simp [bandFires, minHit, maxHit, le_trans h hv]

lemma classify_cw {r : ThresholdRule} {v : ℚ}
    (hw : bandFires r.warning v = true) :
    classifyWithRule r v = .critical ∨ classifyWithRule r v = .warning := by
  unfold classifyWithRule
  by_cases hc : bandFires r.critical v = true
  · simp [hc]
  · simp [hc, hw]

lemma classifyWithRule_eq_firstMatch (r : ThresholdRule) (v : ℚ) :
    classifyWithRule r v = firstMatchClassify r v := by
  unfold classifyWithRule firstMatchClassify orderedBands
  by_cases h1 : bandFires r.critical v = true <;>
  by_cases h2 : bandFires r.warning v = true <;>
  by_cases h3 : bandFires r.good v = true <;>
  by_cases h4 : bandFires r.excellent v = true <;>
  simp [List.find?, h1, h2, h3, h4]

/-- C1: calculateHealthStatus does evaluate the bands in strict
critical → warning → good → excellent order and returns the state of the
first band whose condition fires, but a band's condition is
(min present AND value ≥ min) OR (max present AND value ≤ max) — not the
AND-combination the claim states — so classifying 'revenue' at 850000
hits the warning band's min and returns 'warning', not 'good'. -/
theorem calculateHealthStatus_or_band_semantics (s : String) (r : ThresholdRule) (v : ℚ)
    (hr : thresholdRules s = some r) :
    calculateHealthStatus s v = firstMatchClassify r v ∧
    calculateHealthStatus "revenue" 850000 = HealthStatus.warning := by
  refine ⟨?_, by decide⟩
  simp [calculateHealthStatus, hr, classifyWithRule_eq_firstMatch]

/-- C1 witness: the amended statement evaluated at the revenue rule and 850000. -/
theorem calculateHealthStatus_or_band_semantics_witness :
    calculateHealthStatus "revenue" 850000 = firstMatchClassify revenueRule 850000 ∧
    calculateHealthStatus "revenue" 850000 = HealthStatus.warning :=
  calculateHealthStatus_or_band_semantics "revenue" revenueRule 850000 rfl

/-- C1 counterexample: classifying 'revenue' at 850000 does not return
'good' as the claim asserts. -/
theorem classify_revenue_850000_not_good :
    calculateHealthStatus "revenue" 850000 ≠ HealthStatus.good := by decide

/-- C2: for a registered KPI, any value for which both the critical
band's condition and the warning band's condition fire is resolved to
'critical', because the critical band is checked first. -/
theorem critical_checked_before_warning (s : String) (r : ThresholdRule) (v : ℚ)
    (hr : thresholdRules s = some r)
    (hc : bandFires r.critical v = true)
    (hw : bandFires r.warning v = true) :
    calculateHealthStatus s v = HealthStatus.critical := by
  simp [calculateHealthStatus, hr, classifyWithRule, hc]

/-- C2 witness: for 'revenue' at 100000 both the critical and the warning
conditions fire, and the classifier answers 'critical'. -/
theorem critical_checked_before_warning_witness :
    thresholdRules "revenue" = some revenueRule ∧
    bandFires revenueRule.critical 100000 = true ∧
    bandFires revenueRule.warning 100000 = true ∧
    calculateHealthStatus "revenue" 100000 = HealthStatus.critical :=
  ⟨rfl, by decide, by decide,
   critical_checked_before_warning "revenue" revenueRule 100000 rfl (by decide) (by decide)⟩

/-- C3: calculateHealthStatus is total; an identifier unknown to the
registry yields the default 'good', and a value on which no band's
condition fires falls through every check to the same 'good' default. -/
theorem classify_default_good (s : String) (v : ℚ) (r : ThresholdRule) :
    (thresholdRules s = none → calculateHealthStatus s v = HealthStatus.good) ∧
    ((bandFires r.critical v = false ∧ bandFires r.warning v = false ∧
      bandFires r.good v = false ∧ bandFires r.excellent v = false) →
      classifyWithRule r v = HealthStatus.good) := by
  constructor
  · intro h
    simp [calculateHealthStatus, h]
  · rintro ⟨h1, h2, h3, h4⟩
    simp [classifyWithRule, h1, h2, h3, h4]

/-- C3 witness: an unregistered identifier defaults to 'good', and a rule
with a gap below all its bands classifies 5 as 'good'. -/
theorem classify_default_good_witness :
    calculateHealthStatus "unknown-kpi" 0 = HealthStatus.good ∧
    classifyWithRule gapRule 5 = HealthStatus.good :=
  ⟨(classify_default_good "unknown-kpi" 0 gapRule).1 rfl,
   (classify_default_good "unknown-kpi" 5 gapRule).2 (by decide)⟩

/-- C9: each of the seven registered KPIs has a warning band with both a
min and a max, and the source accepts a band as soon as either bound
holds, so every real value lands in 'critical' or 'warning' — the good
band, the excellent band, and the final fallback are unreachable for
registered KPIs. -/
theorem registered_always_critical_or_warning (s : String) (v : ℚ)
    (hs : s ∈ registeredKPIIds) :
    calculateHealthStatus s v = HealthStatus.critical ∨
    calculateHealthStatus s v = HealthStatus.warning := by
  simp only [registeredKPIIds, List.mem_cons, List.not_mem_nil, or_false] at hs
  rcases hs with rfl | rfl | rfl | rfl | rfl | rfl | rfl
  · show classifyWithRule revenueRule v = _ ∨ classifyWithRule revenueRule v = _
    exact classify_cw (warn_cover (by norm_num))
  · show classifyWithRule revenueGrowthRule v = _ ∨ classifyWithRule revenueGrowthRule v = _
    exact classify_cw (warn_cover (by norm_num))
  · show classifyWithRule profitMarginRule v = _ ∨ classifyWithRule profitMarginRule v = _
    exact classify_cw (warn_cover (by norm_num))
  · show classifyWithRule expenseRatioRule v = _ ∨ classifyWithRule expenseRatioRule v = _
    exact classify_cw (warn_cover (by norm_num))
  · show classifyWithRule customerHealthRule v = _ ∨ classifyWithRule customerHealthRule v = _
    exact classify_cw (warn_cover (by norm_num))
  · show classifyWithRule churnRateRule v = _ ∨ classifyWithRule churnRateRule v = _
    exact classify_cw (warn_cover (by norm_num))
  · show classifyWithRule clvRule v = _ ∨ classifyWithRule clvRule v = _
    exact classify_cw (warn_cover (by norm_num))

/-- C9 witness: 'revenue' at 850000 — a value inside the good band's
range — still classifies as 'warning'. -/
theorem registered_always_critical_or_warning_witness :
    "revenue" ∈ registeredKPIIds ∧
    (calculateHealthStatus "revenue" 850000 = HealthStatus.critical ∨
     calculateHealthStatus "revenue" 850000 = HealthStatus.warning) :=
  ⟨by decide, registered_always_critical_or_warning "revenue" 850000 (by decide)⟩

/-- One point of a KPI reading's history. -/
structure HistoricalPoint where
  period : String
  value : ℚ
deriving DecidableEq, Repr

/-- A classified KPI reading (the KPIData interface). -/
structure KPIData where
  id : String
  currentValue : ℚ
  previousValue : ℚ
  targetValue : ℚ
  trend : Trend
  healthStatus : HealthStatus
  lastUpdated : String
  historicalValues : List HistoricalPoint
deriving DecidableEq, Repr

/-- The body a rule's generateInsight produces. The templated prose fields
(observation, businessImpact, action) are elided: no claim concerns their
text, and the observation interpolates locale number formatting that is
outside this embedding. -/
structure InsightBody where
  kpiId : String
  title : String
  priority : Priority
deriving DecidableEq, Repr

/-- A stamped Insight record as pushed by the engine. -/
structure Insight where
  id : String
  kpiId : String
  title : String
  priority : Priority
  generatedAt : String
  isAutoGenerated : Bool
deriving DecidableEq, Repr

/-- An InsightRule: static id/name/target/priority plus the condition
predicate and the insight generator. -/
structure InsightRule where
  id : String
  name : String
  kpiId : String
  priority : Priority
  condition : KPIData → Bool
  generateInsight : KPIData → InsightBody

/-- The seven registered insight rules from insight-rules.ts, in
registration order, with their exact conditions. -/
def insightRules : List InsightRule :=
  [ { id := "revenue-decline"
      name := "Revenue Decline Detection"
      kpiId := "revenue"
      priority := .high
      condition := fun data => data.trend == .down && data.healthStatus == .warning
      generateInsight := fun data =>
        { kpiId := data.id, title := "Revenue Decline Detected", priority := .high } },
    { id := "profit-margin-erosion"
      name := "Profit Margin Erosion"
      kpiId := "profit-margin"
      priority := .high
      condition := fun data => data.trend == .down && decide (data.currentValue < 15)
      generateInsight := fun data =>
        { kpiId := data.id, title := "Profit Margin Under Pressure", priority := .high } },
    { id := "expense-ratio-increase"
      name := "Rising Expense Ratio"
      kpiId := "expense-ratio"
      priority := .medium
      condition := fun data => data.trend == .up && decide (data.currentValue > 85)
      generateInsight := fun data =>
        { kpiId := data.id, title := "Expense Ratio Rising", priority := .medium } },
    { id := "customer-health-decline"
      name := "Customer Health Deterioration"
      kpiId := "customer-health"
      priority := .high
      condition := fun data => data.trend == .down && decide (data.currentValue < 70)
      generateInsight := fun data =>
        { kpiId := data.id, title := "Customer Satisfaction Declining", priority := .high } },
    { id := "revenue-growth-slowdown"
      name := "Revenue Growth Slowdown"
      kpiId := "revenue-growth"
      priority := .medium
      condition := fun data => data.trend == .down && decide (data.currentValue < 10)
      generateInsight := fun data =>
        { kpiId := data.id, title := "Growth Momentum Slowing", priority := .medium } },
    { id := "critical-profit-margin"
      name := "Critical Profit Margin"
      kpiId := "profit-margin"
      priority := .high
      condition := fun data => data.healthStatus == .critical
      generateInsight := fun data =>
        { kpiId := data.id, title := "Critical Profit Margin Alert", priority := .high } },
    { id := "excellent-revenue-growth"
      name := "Excellent Revenue Growth"
      kpiId := "revenue-growth"
      priority := .medium
      condition := fun data => data.healthStatus == .excellent && data.trend == .up
      generateInsight := fun data =>
        { kpiId := data.id, title := "Exceptional Growth Performance", priority := .medium } } ]

/-- Stamp a generated insight body with its id (rule id + KPI id + the
clock value, which the source takes from Date.now()) and metadata. -/
def stampInsight (rule : InsightRule) (data : KPIData) (now : String) : Insight :=
  let body := rule.generateInsight data
  { id := rule.id ++ "-" ++ data.id ++ "-" ++ now
    kpiId := body.kpiId
    title := body.title
    priority := body.priority
    generatedAt := now
    isAutoGenerated := true }

/-- The insights pushed by generateInsights before the final sort: for
each KPI in order, every rule (in registration order) whose condition
holds contributes one stamped insight. -/
def genRaw (kpiData : List KPIData) (now : String) : List Insight :=
  kpiData.flatMap fun data =>
    (insightRules.filter fun rule => rule.condition data).map
      fun rule => stampInsight rule data now

/-- priorityOrder from the sort comparator: high maps to 0, medium to 1,
low to 2. -/
def priorityOrder : Priority → Nat
  | .high => 0
  | .medium => 1
  | .low => 2

/-- One step of the sort model: insert an element into an
already-sorted list after every element of strictly smaller rank and
before the first element of equal or larger rank. -/
def insertByPriority (x : Insight) : List Insight → List Insight
  | [] => [x]
  | y :: ys =>
    if priorityOrder y.priority < priorityOrder x.priority then
      y :: insertByPriority x ys
    else x :: y :: ys

/-- The sort `insights.sort((a, b) => priorityOrder[a.priority] -
priorityOrder[b.priority])`. Array.prototype.sort is stable (ECMA-262),
so it is modelled as stable insertion sort on the rank. -/
def sortByPriority : List Insight → List Insight
  | [] => []
  | x :: xs => insertByPriority x (sortByPriority xs)

/-- generateInsights from insight-rules.ts: generate then sort by
priority, high first. -/
def generateInsights (kpiData : List KPIData) (now : String) : List Insight :=
  sortByPriority (genRaw kpiData now)

/-- getInsightsForKPI from insight-rules.ts: find the reading with the
requested id, then apply only the rules registered for that id, in
registration order, without sorting. -/
def getInsightsForKPI (kpiId : String) (kpiData : List KPIData) (now : String) : List Insight :=
  match kpiData.find? fun kpi => kpi.id == kpiId with
  | none => []
  | some data =>
    (insightRules.filter fun rule => rule.kpiId == kpiId && rule.condition data).map
      fun rule => stampInsight rule data now

/-- The insights of one priority class, in their original order. -/
def filterPr (p : Priority) (l : List Insight) : List Insight :=
  l.filter fun i => i.priority == p

lemma priority_of_mem_filterPr {p : Priority} {l : List Insight} {y : Insight}
    (hy : y ∈ filterPr p l) : y.priority = p := by
  have h := (List.mem_filter.mp hy).2
  simpa using h

lemma insertByPriority_front {x : Insight} {l : List Insight}
    (h : ∀ y ∈ l, ¬ priorityOrder y.priority < priorityOrder x.priority) :
    insertByPriority x l = x :: l := by
  cases l with
  | nil => rfl
  | cons y ys =>
    simp [insertByPriority, h y (List.mem_cons_self y ys)]

lemma insertByPriority_append {x : Insight} {l₁ l₂ : List Insight}
    (h : ∀ y ∈ l₁, priorityOrder y.priority < priorityOrder x.priority) :
    insertByPriority x (l₁ ++ l₂) = l₁ ++ insertByPriority x l₂ := by
  induction l₁ with
  | nil => rfl
  | cons y ys ih =>
    show insertByPriority x (y :: (ys ++ l₂)) = _
    simp only [insertByPriority, if_pos (h y (List.mem_cons_self y ys))]
    rw [ih fun z hz => h z (List.mem_cons_of_mem y hz)]
    simp

lemma filterPr_cons (p : Priority) (x : Insight) (xs : List Insight) :
    filterPr p (x :: xs) =
      if x.priority == p then x :: filterPr p xs else filterPr p xs := by
  simp only [filterPr, List.filter]
  by_cases h : x.priority == p
  · simp [h]
  · simp [Bool.of_not_eq_true h]

/-- The stable sort in the source lays the high block, then the medium
block, then the low block, each in the original order. -/
lemma sortByPriority_eq_filters (l : List Insight) :
    sortByPriority l = filterPr .high l ++ filterPr .medium l ++ filterPr .low l := by
  induction l with
  | nil => rfl
  | cons x xs ih =>
    have hh : ∀ y ∈ filterPr Priority.high xs, priorityOrder y.priority = 0 := by
      intro y hy
      rw [priority_of_mem_filterPr hy]
      decide
    have hm : ∀ y ∈ filterPr Priority.medium xs, priorityOrder y.priority = 1 := by
      intro y hy
      rw [priority_of_mem_filterPr hy]
      decide
    have hl : ∀ y ∈ filterPr Priority.low xs, priorityOrder y.priority = 2 := by
      intro y hy
      rw [priority_of_mem_filterPr hy]
      decide
    show insertByPriority x (sortByPriority xs) = _
    rw [ih]
    cases hx : x.priority with
    | high =>
      have hfront : insertByPriority x
          (filterPr .high xs ++ filterPr .medium xs ++ filterPr .low xs) =
          x :: (filterPr .high xs ++ filterPr .medium xs ++ filterPr .low xs) := by
        apply insertByPriority_front
        intro y _
        simp [hx, priorityOrder]
      rw [hfront, filterPr_cons, filterPr_cons, filterPr_cons, hx]
      simp
    | medium =>
      have hstep : insertByPriority x
          (filterPr .high xs ++ filterPr .medium xs ++ filterPr .low xs) =
          filterPr .high xs ++
            (x :: (filterPr .medium xs ++ filterPr .low xs)) := by
        rw [List.append_assoc]
        rw [insertByPriority_append fun y hy => by
          rw [hh y hy, hx]
          decide]
        rw [insertByPriority_front fun y hy => by
          rcases List.mem_append.mp hy with hy | hy
          · rw [hm y hy, hx]
            decide
          · rw [hl y hy, hx]
            decide]
      rw [hstep, filterPr_cons, filterPr_cons, filterPr_cons, hx]
      simp
    | low =>
      have hstep : insertByPriority x
          (filterPr .high xs ++ filterPr .medium xs ++ filterPr .low xs) =
          (filterPr .high xs ++ filterPr .medium xs) ++
            (x :: filterPr .low xs) := by
        rw [insertByPriority_append fun y hy => by
          rcases List.mem_append.mp hy with hy | hy
          · rw [hh y hy, hx]
            decide
          · rw [hm y hy, hx]
            decide]
        rw [insertByPriority_front fun y hy => by
          rw [hl y hy, hx]
          decide]
      rw [hstep, filterPr_cons, filterPr_cons, filterPr_cons, hx]
      simp

lemma filterPr_filterPr (p q : Priority) (l : List Insight) :
    filterPr p (filterPr q l) = if p = q then filterPr q l else [] := by
  by_cases hpq : p = q
  · subst hpq
    simp [filterPr, List.filter_filter]
  · rw [if_neg hpq, filterPr, filterPr, List.filter_filter, List.filter_eq_nil_iff]
    intro a _
    simp only [Bool.and_eq_true, beq_iff_eq, not_and]
    intro h1 h2
    exact hpq (h1 ▸ h2)

lemma filterPr_append (p : Priority) (l₁ l₂ : List Insight) :
    filterPr p (l₁ ++ l₂) = filterPr p l₁ ++ filterPr p l₂ := by
  simp [filterPr, List.filter_append]

lemma pairwise_filterPr (p : Priority) (l : List Insight) :
    List.Pairwise
      (fun a b => priorityOrder a.priority ≤ priorityOrder b.priority)
      (filterPr p l) := by
  apply List.pairwise_of_forall_mem_list
  intro a ha b hb
  rw [priority_of_mem_filterPr ha, priority_of_mem_filterPr hb]

/-- C6: the output of generateInsights is sorted by priority rank
(high before medium before low), and within each priority class the
insights keep the original rule-then-KPI generation order: the sort the
source performs is stable. -/
theorem generateInsights_sorted_stable (kpiData : List KPIData) (now : String) :
    List.Pairwise
      (fun a b => priorityOrder a.priority ≤ priorityOrder b.priority)
      (generateInsights kpiData now) ∧
    ∀ p : Priority,
      filterPr p (generateInsights kpiData now) =
        filterPr p (genRaw kpiData now) := by
  have heq : generateInsights kpiData now =
      filterPr .high (genRaw kpiData now) ++ filterPr .medium (genRaw kpiData now) ++
        filterPr .low (genRaw kpiData now) :=
    sortByPriority_eq_filters (genRaw kpiData now)
  constructor
  · rw [heq, List.pairwise_append]
    refine ⟨?_, pairwise_filterPr _ _, ?_⟩
    · rw [List.pairwise_append]
      refine ⟨pairwise_filterPr _ _, pairwise_filterPr _ _, ?_⟩
      intro a ha b hb
      rw [priority_of_mem_filterPr ha, priority_of_mem_filterPr hb]
      decide
    · intro a ha b hb
      rw [priority_of_mem_filterPr hb]
      rcases List.mem_append.mp ha with ha | ha
      · rw [priority_of_mem_filterPr ha]
        decide
      · rw [priority_of_mem_filterPr ha]
        decide
  · intro p
    rw [heq, filterPr_append, filterPr_append]
    cases p <;> simp [filterPr_filterPr]

/-- A fixed clock value standing for the Date.now() millisecond reading
taken while the engine runs. -/
def sampleNow : String := "1736744400000"

/-- The scenario's classified KPI: 'profit-margin' at 8, trending down,
annotated critical — the classifier's verdict on 8, as the theorem below
establishes. -/
def kpiProfitMargin : KPIData :=
  { id := "profit-margin"
    currentValue := 8
    previousValue := 14
    targetValue := 18
    trend := .down
    healthStatus := .critical
    lastUpdated := "2026-01-13T05:00:00Z"
    historicalValues := [] }

lemma classify_profit_margin_8 :
    calculateHealthStatus "profit-margin" 8 = HealthStatus.critical := by
  show classifyWithRule profitMarginRule 8 = _
  have hc : bandFires profitMarginRule.critical 8 = true := by
    simp only [bandFires, minHit, maxHit, profitMarginRule]
    norm_num
  simp [classifyWithRule, hc]

/-- C7: 'profit-margin' at 8 classifies as critical; querying the engine
for that KPI fires exactly the profit-margin-erosion rule and the
critical-profit-margin rule, yielding two high-priority insights in
registration order (erosion first). -/
theorem profit_margin_8_down_two_high_insights :
    calculateHealthStatus "profit-margin" 8 = HealthStatus.critical ∧
    kpiProfitMargin.healthStatus = HealthStatus.critical ∧
    (getInsightsForKPI "profit-margin" [kpiProfitMargin] sampleNow).map
        (fun i => (i.id, i.priority)) =
      [("profit-margin-erosion-profit-margin-1736744400000", Priority.high),
       ("critical-profit-margin-profit-margin-1736744400000", Priority.high)] :=
  ⟨classify_profit_margin_8, rfl, by decide⟩

/-- C10: over the same single classified KPI, generateInsights evaluates
every rule (four fire: erosion, customer-health-decline,
revenue-growth-slowdown, critical) while getInsightsForKPI keeps only the
two rules registered for 'profit-margin'; the batch output is strictly
larger and contains an insight from a rule targeting 'customer-health'. -/
theorem generateInsights_broader_than_getInsightsForKPI :
    (generateInsights [kpiProfitMargin] sampleNow).length = 4 ∧
    (getInsightsForKPI "profit-margin" [kpiProfitMargin] sampleNow).length = 2 ∧
    (getInsightsForKPI "profit-margin" [kpiProfitMargin] sampleNow).length <
      (generateInsights [kpiProfitMargin] sampleNow).length ∧
    "customer-health-decline-profit-margin-1736744400000" ∈
      (generateInsights [kpiProfitMargin] sampleNow).map (fun i => i.id) ∧
    (insightRules.filter fun r => r.id == "customer-health-decline").map
        (fun r => r.kpiId) = ["customer-health"] := by
  decide

/-- One weighted factor of the composite health score. -/
structure HealthFactor where
  category : String
  score : ℚ
  weight : ℚ
deriving DecidableEq, Repr

/-- The BusinessHealthScore record shape. -/
structure BusinessHealthScore where
  overall : ℚ
  financial : ℚ
  operational : ℚ
  customer : ℚ
  status : HealthStatus
  factors : List HealthFactor
deriving DecidableEq, Repr

/-- mockBusinessHealthScore from mock-api.ts, field for field. -/
def mockBusinessHealthScore : BusinessHealthScore :=
  { overall := 68
    financial := 65
    operational := 70
    customer := 72
    status := .warning
    factors :=
      [ { category := "Revenue Growth", score := 55, weight := (0.3 : ℚ) },
        { category := "Profitability", score := 65, weight := (0.25 : ℚ) },
        { category := "Cost Efficiency", score := 70, weight := (0.2 : ℚ) },
        { category := "Customer Satisfaction", score := 72, weight := (0.25 : ℚ) } ] }

/-- getHealthScoreColor from the BusinessHealthDashboard component: the
global banding of an overall score, expressed as a text colour. -/
def getHealthScoreColor (score : ℚ) : String :=
  if score ≥ 80 then "text-green-600"
  else if score ≥ 60 then "text-yellow-600"
  else if score ≥ 40 then "text-orange-600"
  else "text-red-600"

/-- Modelled from the spec: the status derivation for the composite
overall score (≥ 80 excellent, ≥ 60 good, ≥ 40 warning, else critical).
No such derivation exists in the source, which hardcodes the status
field of the mock record; the component getHealthScoreColor carries the
same bands as colours. -/
def deriveOverallStatus (score : ℚ) : HealthStatus :=
  if score ≥ 80 then .excellent
  else if score ≥ 60 then .good
  else if score ≥ 40 then .warning
  else .critical

/-- Modelled from the spec: the Composite Health Scorer's overall value,
the weighted sum of the factor scores. The source has no scoring
function; the overall field of its record is an independently authored
number. -/
def weightedOverall (factors : List HealthFactor) : ℚ :=
  (factors.map fun f => f.score * f.weight).sum

/-- The total weight of a factor list. -/
def sumWeights (factors : List HealthFactor) : ℚ :=
  (factors.map fun f => f.weight).sum

/-- C4 counterexample: the shipped record's status field is not the
state the global banding derives from its overall value. -/
theorem mock_status_ne_derived :
    mockBusinessHealthScore.status ≠
      deriveOverallStatus mockBusinessHealthScore.overall := by
  have h : deriveOverallStatus mockBusinessHealthScore.overall = HealthStatus.good := by
    norm_num [deriveOverallStatus, mockBusinessHealthScore]
  rw [h]
  decide

/-- C4 (amended): the global banding maps the shipped overall of 68 to
'good' — getHealthScoreColor shows the matching yellow band — but the
record's status field is hardcoded 'warning'. -/
theorem mock_overall_banding_mismatch :
    deriveOverallStatus mockBusinessHealthScore.overall = HealthStatus.good ∧
    getHealthScoreColor mockBusinessHealthScore.overall = "text-yellow-600" ∧
    mockBusinessHealthScore.status = HealthStatus.warning := by
  refine ⟨?_, ?_, rfl⟩
  · norm_num [deriveOverallStatus, mockBusinessHealthScore]
  · norm_num [getHealthScoreColor, mockBusinessHealthScore]

/-- C5 counterexample: the shipped record's overall (68) is not the
weighted sum of its factors (64.75). -/
theorem mock_overall_ne_weighted_sum :
    mockBusinessHealthScore.overall ≠
      weightedOverall mockBusinessHealthScore.factors := by
  norm_num [weightedOverall, mockBusinessHealthScore]

/-- C5 (amended): for weights summing to 1 the weighted-sum scorer gives
100 when every factor scores 100 and 0 when every factor scores 0, and
on the shipped factor list it gives 259/4 = 64.75, while the record's
independently authored overall is 68. -/
theorem weightedOverall_bounds (factors : List HealthFactor)
    (hw : sumWeights factors = 1) :
    ((∀ f ∈ factors, f.score = 100) → weightedOverall factors = 100) ∧
    ((∀ f ∈ factors, f.score = 0) → weightedOverall factors = 0) ∧
    weightedOverall mockBusinessHealthScore.factors = 259/4 ∧
    mockBusinessHealthScore.overall = 68 := by
  have hw' : (factors.map fun f => f.weight).sum = 1 := hw
  refine ⟨?_, ?_, by norm_num [weightedOverall, mockBusinessHealthScore], rfl⟩
  · intro h
    have hmap : (factors.map fun f => f.score * f.weight) =
        factors.map fun f => 100 * f.weight := by
      apply List.map_congr_left
      intro f hf
      rw [h f hf]
    rw [weightedOverall, hmap, List.sum_map_mul_left, hw', mul_one]
  · intro h
    have hmap : (factors.map fun f => f.score * f.weight) =
        factors.map fun f => 0 * f.weight := by
      apply List.map_congr_left
      intro f hf
      rw [h f hf]
    rw [weightedOverall, hmap, List.sum_map_mul_left, hw', mul_one]

/-- C5 witness: the amended bounds evaluated on concrete one-factor
lists with weight 1. -/
theorem weightedOverall_bounds_witness :
    weightedOverall [⟨"a", 100, 1⟩] = 100 ∧ weightedOverall [⟨"a", 0, 1⟩] = 0 :=
  ⟨(weightedOverall_bounds [⟨"a", 100, 1⟩] (by norm_num [sumWeights])).1 (by decide),
   (weightedOverall_bounds [⟨"a", 0, 1⟩] (by norm_num [sumWeights])).2.1 (by decide)⟩

/-- A Partial Insight: every field optional, as in the update payload. -/
structure InsightPatch where
  id : Option String := none
  kpiId : Option String := none
  title : Option String := none
  priority : Option Priority := none
  generatedAt : Option String := none
  isAutoGenerated : Option Bool := none
deriving DecidableEq, Repr

/-- The object-spread merge of a patch over an existing insight: every
provided field overwrites, every absent field is kept. -/
def mergePatch (i : Insight) (p : InsightPatch) : Insight :=
  { id := p.id.getD i.id
    kpiId := p.kpiId.getD i.kpiId
    title := p.title.getD i.title
    priority := p.priority.getD i.priority
    generatedAt := p.generatedAt.getD i.generatedAt
    isAutoGenerated := p.isAutoGenerated.getD i.isAutoGenerated }

/-- The envelope updateInsight answers with (data is none where the
source returns an empty object cast to Insight). -/
structure UpdateResult where
  data : Option Insight
  success : Bool
  message : Option String := none
deriving DecidableEq, Repr

/-- updateInsight from mock-api.ts over an explicit store: findIndex on
the id; on -1 answer success=false with the message and leave the store
alone; otherwise merge the patch into the found slot in place. The final
fallback arm is unreachable because findIdx? returns an in-bounds
index. -/
def updateInsight (store : List Insight) (insightId : String) (updates : InsightPatch) :
    UpdateResult × List Insight :=
  match store.findIdx? fun i => i.id == insightId with
  | none =>
    ({ data := none, success := false, message := some "Insight not found" }, store)
  | some idx =>
    match store[idx]? with
    | some old =>
      let updated := mergePatch old updates
      ({ data := some updated, success := true }, store.set idx updated)
    | none =>
      ({ data := none, success := false, message := some "Insight not found" }, store)

/-- C8: updating an id that no insight in the store carries answers
success=false with the message 'Insight not found' and leaves the store
exactly as it was, whatever the patch. -/
theorem updateInsight_unknown_id (store : List Insight) (insightId : String)
    (updates : InsightPatch) (h : ∀ i ∈ store, i.id ≠ insightId) :
    (updateInsight store insightId updates).1.success = false ∧
    (updateInsight store insightId updates).1.message = some "Insight not found" ∧
    (updateInsight store insightId updates).2 = store := by
  have hf : (store.findIdx? fun i => i.id == insightId) = none := by
    rw [List.findIdx?_eq_none_iff]
    intro i hi
    simp [h i hi]
  simp [updateInsight, hf]

/-- A concrete stored insight. -/
def sampleInsight : Insight :=
  { id := "revenue-decline-revenue-1736744400000"
    kpiId := "revenue"
    title := "Revenue Decline Detected"
    priority := .high
    generatedAt := sampleNow
    isAutoGenerated := true }

/-- C8 witness: updating a nonexistent id in a one-insight store fails
with the message and returns the store unchanged. -/
theorem updateInsight_unknown_id_witness :
    (updateInsight [sampleInsight] "nonexistent-id" {}).1.success = false ∧
    (updateInsight [sampleInsight] "nonexistent-id" {}).1.message = some "Insight not found" ∧
    (updateInsight [sampleInsight] "nonexistent-id" {}).2 = [sampleInsight] :=
  updateInsight_unknown_id [sampleInsight] "nonexistent-id" {} (by decide)

end BHD
